import Mathlib

/-!
# Verification of the customer-support-agent response orchestration engine

Shallow embedding of the orchestration core of the repository:

* `src/app/mcp_client.py` — tool gateway (`_load_tool_map`, `_call_tool`) and the
  fallback provider operations (`web_search`, `fetch_recent_orders`,
  `fetch_customer_profile`, `cache_data`, `get_cached_data`);
* `src/app/memory.py` — Redis-backed conversation memory (`append_message`,
  `get_recent_messages`);
* `src/app/agent.py` — the response orchestrator (`EnhancedSupportAgent.handle_query`
  and its helpers).

Python dynamic values that cross the JSON/tool boundary are modelled by `JValue`;
Python `dict` state (the in-process fallback cache, the Redis stores) is modelled by
association lists where assignment prepends and lookup returns the most recent
binding, which is observationally the same as dict assignment.  Remote effects
(toolbox transport, the Tavily HTTP call, the generation SDK, Redis connectivity)
are modelled by explicit outcome parameters, with Python exceptions represented as
explicit `raises`/`error` constructors; every embedded function is total, so "never
raises" claims become statements about the explicit error channel.
-/

namespace CustomerSupport

/-- JSON-like values exchanged with the tools and stored in caches; models the
Python objects that cross the `mcp_client` boundary. -/
inductive JValue where
  | null
  | bool (b : Bool)
  | num (n : Int)
  | str (s : String)
  | arr (xs : List JValue)
  | obj (fields : List (String × JValue))

/-- Python truthiness (`if value:`) for the values of `JValue`. -/
def JValue.truthy : JValue → Bool
  | .null => false
  | .bool b => b
  | .num n => n != 0
  | .str s => s != ""
  | .arr xs => !xs.isEmpty
  | .obj fs => !fs.isEmpty

/-- The uniform result envelope produced by `MCPClient`: a Python dict with the
keys that actually occur in `src/app/mcp_client.py` (`success`, `data`, `error`,
`source`, `storage`, `message`); `none` models an absent key. -/
structure Envelope where
  success : Bool
  data : Option JValue
  error : Option String
  source : Option String
  storage : Option String
  message : Option String

/-- `{"success": True, "data": result}` — the success envelope of `_call_tool`. -/
def okEnv (v : JValue) : Envelope :=
  { success := true, data := some v, error := none, source := none,
    storage := none, message := none }

/-- `{"success": False, "error": msg}` — the failure envelope of `_call_tool`. -/
def failEnv (msg : String) : Envelope :=
  { success := false, data := none, error := some msg, source := none,
    storage := none, message := none }

/-- The exact not-found envelope: `{"success": False, "error": f"Tool '{name}' not found"}`. -/
def notFoundEnv (name : String) : Envelope :=
  failEnv ("Tool \x27" ++ name ++ "\x27 not found")

/-- Python `result.get("data") is not None`: the `data` key is present and its
value is not `None`. -/
def Envelope.dataIsNotNone (e : Envelope) : Bool :=
  match e.data with
  | some .null => false
  | some _ => true
  | none => false

/-- Python `if cached_response.get("data"):` — the `data` key is present and truthy. -/
def Envelope.dataTruthy (e : Envelope) : Bool :=
  match e.data with
  | some v => v.truthy
  | none => false

/-- Python `a or b` on optional strings (`None` and `""` are falsy). -/
def pyOrStr (a b : Option String) : Option String :=
  match a with
  | some s => if s = "" then b else some s
  | none => b

/-- Python truthiness of an optional string (`None` and `""` are falsy). -/
def pyTruthyOpt : Option String → Bool
  | some s => s != ""
  | none => false

/-! ## Tool Gateway (`MCPClient._load_tool_map` / `MCPClient._call_tool`) -/

/-- One tool object returned by `client.load_toolset`: its `__name__` attribute,
its `name` attribute (either may be missing), and the outcome of awaiting
`tool(**kwargs)` for the call under consideration (`Except.error` models a raised
exception, carrying `str(exc)`). -/
structure RawTool where
  dunderName : Option String
  attrName : Option String
  run : Except String JValue

/-- `getattr(tool, "__name__", None) or getattr(tool, "name", None)`. -/
def RawTool.pyName (t : RawTool) : Option String :=
  pyOrStr t.dunderName t.attrName

/-- `name.replace("_", "-")`: with a single-character pattern and replacement this
is exactly a character-wise map. -/
def normalizeName (s : String) : String :=
  String.mk (s.data.map (fun ch => if ch = '_' then '-' else ch))

/-- `MCPClient._load_tool_map` on an already-loaded tool list: keep the tools with
a truthy name, keyed by the name with `_` replaced by `-`; later assignments
shadow earlier ones (dict assignment). -/
def load_tool_map (tools : List RawTool) : List (String × RawTool) :=
  tools.foldl
    (fun m t =>
      match t.pyName with
      | some n => if n = "" then m else (normalizeName n, t) :: m
      | none => m)
    []

/-- Outcome of the toolbox loading step inside `_call_tool`'s `try` block:
either `load_toolset` raised, or it produced a list of tools. -/
inductive LoadResult where
  | raises (msg : String)
  | loaded (tools : List RawTool)

/-- `MCPClient._call_tool`: load the tool map, look the tool up by its normalized
name, call it; any exception from loading or calling is caught and returned as a
failure envelope.  Total by construction — the embedding of "does not raise". -/
def call_tool (lr : LoadResult) (tool_name : String) : Envelope :=
  match lr with
  | .raises msg => failEnv msg
  | .loaded tools =>
    match (load_tool_map tools).lookup tool_name with
    | none => notFoundEnv tool_name
    | some t =>
      match t.run with
      | .ok v => okEnv v
      | .error msg => failEnv msg

/-! ## Fallback Provider operations (`MCPClient`)

Each operation is embedded twice: a `*_with` form taking the gateway envelope that
`self._call_tool(...)` produced for this invocation (the code below the call
site), and the operation itself composing it with `call_tool` on a `LoadResult`
describing the gateway world of the call. -/

/-- The deterministic mock envelope `fetch_recent_orders` substitutes on failure. -/
def mockOrdersEnvelope (customer_id : String) : Envelope :=
  { success := true,
    data := some (.arr [.obj [("id", .num 1), ("customer_id", .str customer_id),
                              ("note", .str "Mock orders (toolbox unavailable)")]]),
    error := none, source := some "mock", storage := none, message := none }

/-- `MCPClient.fetch_recent_orders` given the envelope of its `_call_tool` call. -/
def fetch_recent_orders_with (result : Envelope) (customer_id : String) : Envelope :=
  if result.success then result
  else mockOrdersEnvelope customer_id

/-- `MCPClient.fetch_recent_orders`. -/
def fetch_recent_orders (lr : LoadResult) (customer_id : String) : Envelope :=
  fetch_recent_orders_with (call_tool lr "recent-orders") customer_id

/-- The deterministic mock envelope `fetch_customer_profile` substitutes on failure. -/
def mockProfileEnvelope (customer_id : String) : Envelope :=
  { success := true,
    data := some (.arr [.obj [("id", .str customer_id),
                              ("note", .str "Mock profile (toolbox unavailable)")]]),
    error := none, source := some "mock", storage := none, message := none }

/-- `MCPClient.fetch_customer_profile` given the envelope of its `_call_tool` call. -/
def fetch_customer_profile_with (result : Envelope) (customer_id : String) : Envelope :=
  if result.success then result
  else mockProfileEnvelope customer_id

/-- `MCPClient.fetch_customer_profile`. -/
def fetch_customer_profile (lr : LoadResult) (customer_id : String) : Envelope :=
  fetch_customer_profile_with (call_tool lr "customer-profile") customer_id

/-- Outcome of the direct Tavily HTTP POST inside `web_search`'s `try` block:
`raises` models any exception (connection error, timeout, `raise_for_status`),
`json` a parsed 2xx body. -/
inductive HttpResult where
  | raises (msg : String)
  | json (v : JValue)

/-- The request payload `web_search` builds for the Tavily call: base fields plus
each optional argument appended, in source order, when it is not `None`. -/
def tavilyPayload (query api_key : String) (max_results : Option Int)
    (search_depth : Option String) (include_domains exclude_domains : Option (List String))
    (include_answer : Option Bool) : List (String × JValue) :=
  let p := [("query", JValue.str query), ("api_key", JValue.str api_key)]
  let p := match max_results with
    | some n => p ++ [("max_results", JValue.num n)]
    | none => p
  let p := match search_depth with
    | some s => p ++ [("search_depth", JValue.str s)]
    | none => p
  let p := match include_domains with
    | some ds => p ++ [("include_domains", JValue.arr (ds.map JValue.str))]
    | none => p
  let p := match exclude_domains with
    | some ds => p ++ [("exclude_domains", JValue.arr (ds.map JValue.str))]
    | none => p
  match include_answer with
  | some b => p ++ [("include_answer", JValue.bool b)]
  | none => p

/-- The deterministic mock search payload built by `web_search` (identical in the
no-credential branch and the exception handler). -/
def mockSearchData (query : String) : JValue :=
  .obj [("query", .str query),
        ("results", .arr [.obj [
          ("title", .str ("Mock information about " ++ query)),
          ("snippet", .str ("This is placeholder data for \x27" ++ query ++ "\x27.")),
          ("url", .str "https://example.com")]])]

/-- The mock search envelope `{"success": True, "data": ..., "source": "mock"}`. -/
def mockSearchEnvelope (query : String) : Envelope :=
  { success := true, data := some (mockSearchData query), error := none,
    source := some "mock", storage := none, message := none }

/-- `MCPClient.web_search`: `tavilyKey` is `os.getenv("TAVILY_API_KEY")`; `http`
maps the posted payload to the outcome of the HTTP round trip.  Total — the
embedding of "never raises". -/
def web_search (tavilyKey : Option String) (http : List (String × JValue) → HttpResult)
    (query : String) (max_results : Option Int) (search_depth : Option String)
    (include_domains exclude_domains : Option (List String))
    (include_answer : Option Bool) : Envelope :=
  match tavilyKey with
  | some key =>
    if key = "" then mockSearchEnvelope query
    else
      match http (tavilyPayload query key max_results search_depth include_domains
                    exclude_domains include_answer) with
      | .json d =>
        { success := true, data := some d, error := none, source := some "tavily",
          storage := none, message := none }
      | .raises _ => mockSearchEnvelope query
  | none => mockSearchEnvelope query

/-- The `{"success": True, "message": "Cached locally", "storage": "local"}` envelope. -/
def localSetEnvelope : Envelope :=
  { success := true, data := none, error := none, source := none,
    storage := some "local", message := some "Cached locally" }

/-- The `{"success": True, "data": value, "storage": "local"}` envelope of a local
  cache hit. -/
def localHitEnvelope (value : String) : Envelope :=
  { success := true, data := some (.str value), error := none, source := none,
    storage := some "local", message := none }

/-- `MCPClient.cache_data` given the envelope of its `_call_tool` call: on gateway
success return the envelope unchanged; otherwise write through to the in-process
`_local_cache` and report a local success.  Returns the envelope and the updated
local cache. -/
def cache_data_with (result : Envelope) (localCache : List (String × String))
    (key value : String) : Envelope × List (String × String) :=
  if result.success then (result, localCache)
  else (localSetEnvelope, (key, value) :: localCache)

/-- `MCPClient.cache_data` (the `ttl` argument is only forwarded to the gateway
call, which the `LoadResult` already summarizes). -/
def cache_data (lr : LoadResult) (localCache : List (String × String))
    (key value : String) (_ttl : Int) : Envelope × List (String × String) :=
  cache_data_with (call_tool lr "redis-set-cache") localCache key value

/-- `MCPClient.get_cached_data` given the envelope of its `_call_tool` call:
use the gateway result when it succeeded with a non-`None` `data`; otherwise fall
back to the in-process `_local_cache`; otherwise propagate the gateway envelope. -/
def get_cached_data_with (result : Envelope) (localCache : List (String × String))
    (key : String) : Envelope :=
  if result.success && result.dataIsNotNone then result
  else
    match localCache.lookup key with
    | some v => localHitEnvelope v
    | none => result

/-- `MCPClient.get_cached_data`. -/
def get_cached_data (lr : LoadResult) (localCache : List (String × String))
    (key : String) : Envelope :=
  get_cached_data_with (call_tool lr "redis-get-cache") localCache key

/-! ## Conversation Memory (`RedisConversationMemory`)

A stored Redis list element is a string; `append_message` only ever stores
`json.dumps` of a `{role, content, timestamp}` dict, which `json.loads` parses
back to the same dict, so a stored element is modelled as either a well-formed
entry (`good`, carrying the dict) or an arbitrary string on which `json.loads`
raises (`bad`).  Timestamps (`datetime.now(timezone.utc).isoformat()`) are
modelled by a monotone counter; their value never influences control flow.
The whole-bucket TTL (`expire`) only affects passive expiry between calls and is
not modelled. -/

/-- One element of a session's stored Redis list. -/
inductive RawEntry where
  | good (role : String) (content : JValue) (timestamp : Nat)
  | bad (s : String)

/-- A deserialized conversation entry `{role, content, timestamp}`. -/
structure Msg where
  role : String
  content : JValue
  timestamp : Nat

/-- `json.loads` on a stored element, with `JSONDecodeError` as `none`. -/
def parseEntry : RawEntry → Option Msg
  | .good r c t => some ⟨r, c, t⟩
  | .bad _ => none

/-- Models both `LTRIM key -(n) -1` and `LRANGE key -(n) -1` on a list: the last
`n` elements.  When `n = 0` the Redis index is `0`, so the whole list is
kept/returned — faithfully preserved here. -/
def lastSlice (l : List α) (n : Nat) : List α :=
  if n = 0 then l else l.drop (l.length - n)

/-- `RedisConversationMemory.append_message` acting on one session's stored list:
`RPUSH` the serialized entry, then `LTRIM key -(max_turns * 2) -1`. -/
def append_message (maxTurns : Nat) (stored : List RawEntry)
    (role : String) (content : JValue) (now : Nat) : List RawEntry :=
  lastSlice (stored ++ [RawEntry.good role content now]) (maxTurns * 2)

/-- `limit = limit or self._max_turns` (Python: `None` and `0` are falsy). -/
def effectiveLimit (maxTurns : Nat) (limit : Option Nat) : Nat :=
  match limit with
  | some n => if n = 0 then maxTurns else n
  | none => maxTurns

/-- The retrieval loop of `get_recent_messages`: append `json.loads(entry)` to the
accumulator, skipping entries on which it raises. -/
def readEntries : List RawEntry → List Msg
  | [] => []
  | e :: es =>
    match parseEntry e with
    | some m => m :: readEntries es
    | none => readEntries es

/-- `RedisConversationMemory.get_recent_messages` acting on one session's stored
list: `LRANGE key -(limit * 2) -1`, then parse each element, skipping malformed
ones.  Total — the embedding of "never raises". -/
def get_recent_messages (maxTurns : Nat) (stored : List RawEntry)
    (limit : Option Nat) : List Msg :=
  readEntries (lastSlice stored (effectiveLimit maxTurns limit * 2))

/-- A sequence of `append_message` calls to one session, starting from `stored`,
stamping entries with a running counter. -/
def runAppends (maxTurns : Nat) (stored : List RawEntry) (now : Nat) :
    List (String × JValue) → List RawEntry
  | [] => stored
  | (r, c) :: rest => runAppends maxTurns (append_message maxTurns stored r c now) (now + 1) rest

/-- The full (untrimmed) chronological entry sequence the same calls serialize. -/
def allEntries (now : Nat) : List (String × JValue) → List RawEntry
  | [] => []
  | (r, c) :: rest => .good r c now :: allEntries (now + 1) rest

/-! ## Response Orchestrator (`EnhancedSupportAgent`) -/

/-- `EnhancedSupportAgent._conversation_key`:
`return session_id or customer_id or "anonymous-session"`. -/
def conversation_key (customer_id session_id : Option String) : String :=
  (pyOrStr session_id (pyOrStr customer_id (some "anonymous-session"))).getD ""

/-- The cache key derived in `handle_query`:
`f"support:{customer_id}:{hash(user_query)}" if customer_id else f"support:{hash(user_query)}"`. -/
def cache_key (pyHash : String → Int) (customer_id : Option String)
    (user_query : String) : String :=
  if pyTruthyOpt customer_id then
    "support:" ++ customer_id.getD "" ++ ":" ++ toString (pyHash user_query)
  else
    "support:" ++ toString (pyHash user_query)

/-- Python `str.title()`; approximated by `String.capitalize` — the rendered text
is only ever observed by the generation oracle. -/
def pyTitle (s : String) : String := s.capitalize

mutual

/-- Python `str()` of a json-parsed value, as interpolated into the prompt;
approximate rendering, observed only by the generation oracle. -/
def JValue.render : JValue → String
  | .null => "None"
  | .bool b => if b then "True" else "False"
  | .num n => toString n
  | .str s => s
  | .arr xs => "[" ++ String.intercalate ", " (JValue.renderList xs) ++ "]"
  | .obj fs => "\x7b" ++ String.intercalate ", " (JValue.renderFields fs) ++ "\x7d"

def JValue.renderList : List JValue → List String
  | [] => []
  | x :: xs => JValue.render x :: JValue.renderList xs

def JValue.renderFields : List (String × JValue) → List String
  | [] => []
  | (k, v) :: fs => (k ++ ": " ++ JValue.render v) :: JValue.renderFields fs

end

/-- `EnhancedSupportAgent._build_llm_prompt`. -/
def build_llm_prompt (user_query : String) (customer_id : Option String)
    (memory_entries : List Msg) : String :=
  let parts := ["Customer ID: " ++ (if pyTruthyOpt customer_id then customer_id.getD "" else "unknown"),
                "Customer asked: " ++ user_query,
                "If helpful, call tools to fetch profile, orders, or cached responses before replying."]
  let parts :=
    if memory_entries.isEmpty then parts
    else parts ++ ["Recent context:\n" ++ String.intercalate "\n"
      (memory_entries.map (fun e => pyTitle e.role ++ ": " ++ e.content.render))]
  String.intercalate "\n" parts

/-- `EnhancedSupportAgent._generate_fallback_response` applied to
`{"source": source}`: the four-way fixed-string table with its default. -/
def generate_fallback_response (source : String) : String :=
  if source = "database" then
    "I found your order information. How can I help you with your orders?"
  else if source = "web_search" then
    "I\x27ve looked up information about your query. What specific aspect would you like to know more about?"
  else if source = "cache" then
    "Based on our previous discussions, here\x27s what I can tell you."
  else if source = "agent" then
    "I\x27ll help you with that. Let me know if you need more specific information."
  else
    "I\x27m here to help! What else can I assist you with?"

/-- The fixed string `_generate_response` returns when no API key is configured. -/
def noCredentialResponse : String :=
  "I\x27ve gathered some information for you. How else can I help?"

/-- The default used for a falsy `result.final_output`. -/
def emptyOutputResponse : String :=
  "I\x27m here to help! What else can I assist you with?"

/-- Outcome of `Runner.run(self.agent, input=prompt)`: `raises` models a raised
exception; `output s` models a completed run whose `final_output` rendered as the
string `s` (`""` also stands for a falsy `final_output` such as `None`). -/
inductive GenOutcome where
  | raises
  | output (s : String)

/-- The process environment of one `EnhancedSupportAgent`, fixed across the calls
of a scenario. -/
structure Config where
  /-- the toolbox server is reachable and the support toolset resolves and works -/
  remoteUp : Bool
  /-- truthiness of `self.api_key or os.getenv("OPENAI_API_KEY")` -/
  hasApiKey : Bool
  /-- the Redis conversation-memory store is reachable -/
  memoryUp : Bool
  /-- `Runner.run` as a function of the prompt -/
  gen : String → GenOutcome
  /-- Python `hash()` on strings in this process -/
  pyHash : String → Int
  /-- the value the `redis-set-cache` tool returns on success -/
  setReply : JValue

/-- The mutable state threaded through `handle_query`: the in-process fallback
cache, the toolbox Redis cache contents, the conversation-memory lists keyed by
their Redis key, and the timestamp counter. -/
structure AgentState where
  localCache : List (String × String)
  remoteStore : List (String × String)
  memory : List (String × List RawEntry)
  clock : Nat

/-- The gateway envelope for `redis-set-cache` plus its effect on the remote
store: when the toolbox is up the tool stores the pair and succeeds; otherwise
`_call_tool` catches the transport exception and reports failure. -/
def gwSet (cfg : Config) (st : AgentState) (key value : String) : Envelope × AgentState :=
  if cfg.remoteUp then
    (okEnv cfg.setReply, { st with remoteStore := (key, value) :: st.remoteStore })
  else (failEnv "toolbox unavailable", st)

/-- The gateway envelope for `redis-get-cache`: when the toolbox is up the tool
returns the stored string or `None` on a miss; otherwise a caught failure. -/
def gwGet (cfg : Config) (st : AgentState) (key : String) : Envelope :=
  if cfg.remoteUp then
    okEnv (match st.remoteStore.lookup key with
           | some v => .str v
           | none => .null)
  else failEnv "toolbox unavailable"

/-- The Redis key of a session's list: `f"{self._prefix}:{session_id}"` with the
default namespace. -/
def memKey (session : String) : String := "support:memory:" ++ session

/-- One `append_message` call of the agent's memory (`max_turns = 10`, the class
default), advancing the timestamp counter. -/
def agentAppend (st : AgentState) (session role : String) (content : JValue) : AgentState :=
  let k := memKey session
  let cur := (st.memory.lookup k).getD []
  { st with
    memory := (k, append_message 10 cur role content st.clock) :: st.memory,
    clock := st.clock + 1 }

/-- `EnhancedSupportAgent._append_memory`: append the user and assistant messages;
any Redis failure is swallowed and leaves no writes behind. -/
def append_memory (cfg : Config) (st : AgentState) (session : String)
    (user_query : String) (response : JValue) : AgentState :=
  if cfg.memoryUp then
    agentAppend (agentAppend st session "user" (.str user_query)) session "assistant" response
  else st

/-- The `try: result = await Runner.run(...) ... except: ...` tail of
`_generate_response`: a falsy `final_output` is replaced by the default string
and a raised exception by the `"agent"` fallback string.  Returns the text and
whether `Runner.run` was invoked (always `true` here). -/
def runner_result (cfg : Config) (prompt : String) : String × Bool :=
  match cfg.gen prompt with
  | .output s => (if s = "" then emptyOutputResponse else s, true)
  | .raises => (generate_fallback_response "agent", true)

/-- `EnhancedSupportAgent._generate_response`.  Returns the response text and
whether `Runner.run` was invoked. -/
def generate_response (cfg : Config) (st : AgentState) (user_query : String)
    (customer_id : Option String) (session_key : String) : String × Bool :=
  if !cfg.hasApiKey then
    (noCredentialResponse, false)
  else
    let memory_entries :=
      if cfg.memoryUp then
        get_recent_messages 10 ((st.memory.lookup (memKey session_key)).getD []) none
      else []
    runner_result cfg (build_llm_prompt user_query customer_id memory_entries)

/-- The envelope `handle_query` returns to its caller. -/
structure QueryResult where
  source : String
  response : JValue
  cached : Bool
  user_query : String

/-- Which effectful steps a `handle_query` call performed. -/
structure Trace where
  /-- `_generate_response` was entered -/
  genInvoked : Bool
  /-- `Runner.run` was attempted -/
  runnerInvoked : Bool

/-- The envelope the initial `self.mcp_client.get_cached_data(cache_key)` call of
`handle_query` produces: the gateway read composed with the local fallback. -/
def cachedEnvelope (cfg : Config) (st : AgentState) (user_query : String)
    (customer_id : Option String) : Envelope :=
  let ckey := cache_key cfg.pyHash customer_id user_query
  get_cached_data_with (gwGet cfg st ckey) st.localCache ckey

/-- `EnhancedSupportAgent.handle_query`: cache-first orchestration.  Returns the
caller envelope, the post-state, and the trace. -/
def handle_query (cfg : Config) (st : AgentState) (user_query : String)
    (customer_id session_id : Option String) : QueryResult × AgentState × Trace :=
  let session_key := conversation_key customer_id session_id
  let ckey := cache_key cfg.pyHash customer_id user_query
  let cached_response := cachedEnvelope cfg st user_query customer_id
  if cached_response.success && cached_response.dataTruthy then
    let data := cached_response.data.getD .null
    let st1 := append_memory cfg st session_key user_query data
    ({ source := "cache", response := data, cached := true, user_query := user_query },
     st1,
     { genInvoked := false, runnerInvoked := false })
  else
    let gr := generate_response cfg st user_query customer_id session_key
    let gw := gwSet cfg st ckey gr.1
    let cd := cache_data_with gw.1 st.localCache ckey gr.1
    let st2 := { gw.2 with localCache := cd.2 }
    let st3 := append_memory cfg st2 session_key user_query (.str gr.1)
    ({ source := "agent", response := .str gr.1, cached := false, user_query := user_query },
     st3,
     { genInvoked := true, runnerInvoked := gr.2 })

/-! ## Specification-side definition and concrete fixtures -/

/-- The session-key selection exactly as the specification words it: `session_id`
when it is a non-empty string, else `customer_id` when that is a non-empty
string, else the anonymous sentinel.  Written from the spec, to be compared with
`conversation_key` (written from the source). -/
def specSessionKey (customer_id session_id : Option String) : String :=
  match session_id with
  | some s =>
    if s ≠ "" then s
    else
      match customer_id with
      | some c => if c ≠ "" then c else "anonymous-session"
      | none => "anonymous-session"
  | none =>
    match customer_id with
    | some c => if c ≠ "" then c else "anonymous-session"
    | none => "anonymous-session"

/-- A concrete environment: toolbox reachable, no generation credential, memory
reachable, generation raising, a constant string hash. -/
def cfgUp : Config :=
  { remoteUp := true, hasApiKey := false, memoryUp := true,
    gen := fun _ => .raises, pyHash := fun _ => 0, setReply := .null }

/-- The same environment with the toolbox transport down. -/
def cfgDown : Config :=
  { cfgUp with remoteUp := false }

/-- A state whose remote cache already holds an answer under `support:1:0`. -/
def stHit : AgentState :=
  { localCache := [], remoteStore := [("support:1:0", "hello")], memory := [], clock := 0 }

/-- The empty initial state. -/
def stEmpty : AgentState :=
  { localCache := [], remoteStore := [], memory := [], clock := 0 }

/-! ## Helper lemmas -/

lemma readEntries_eq_filterMap (l : List RawEntry) :
    readEntries l = l.filterMap parseEntry := by
  induction l with
  | nil => rfl
  | cons e es ih =>
    cases e with
    | good r c t => simp [readEntries, parseEntry, List.filterMap_cons, ih]
    | bad s => simp [readEntries, parseEntry, List.filterMap_cons, ih]

lemma readEntries_append (a b : List RawEntry) :
    readEntries (a ++ b) = readEntries a ++ readEntries b := by
  simp [readEntries_eq_filterMap]

lemma readEntries_suffix {a b : List RawEntry} (h : a <:+ b) :
    readEntries a <:+ readEntries b := by
  obtain ⟨t, ht⟩ := h
  exact ⟨readEntries t, by rw [← ht, readEntries_append]⟩

lemma lastSlice_suffix (l : List α) (n : Nat) : lastSlice l n <:+ l := by
  unfold lastSlice
  split
  · exact List.suffix_rfl
  · exact List.drop_suffix _ _

lemma lastSlice_length_le (l : List α) (n : Nat) (hn : n ≠ 0) :
    (lastSlice l n).length ≤ n := by
  simp only [lastSlice, if_neg hn, List.length_drop]
  omega

lemma append_message_length_le (T : Nat) (hT : 1 ≤ T) (stored : List RawEntry)
    (r : String) (c : JValue) (now : Nat) :
    (append_message T stored r c now).length ≤ 2 * T := by
  have h2 : T * 2 ≠ 0 := by omega
  have := lastSlice_length_le (stored ++ [RawEntry.good r c now]) (T * 2) h2
  unfold append_message
  omega

lemma runAppends_length_le (T : Nat) (hT : 1 ≤ T) (msgs : List (String × JValue)) :
    ∀ stored now, stored.length ≤ 2 * T → (runAppends T stored now msgs).length ≤ 2 * T := by
  induction msgs with
  | nil => intro stored now h; simpa [runAppends] using h
  | cons m rest ih =>
    intro stored now h
    obtain ⟨r, c⟩ := m
    exact ih _ _ (append_message_length_le T hT stored r c now)

lemma suffix_append_single {a b : List α} (x : α) (h : a <:+ b) :
    a ++ [x] <:+ b ++ [x] := by
  obtain ⟨t, ht⟩ := h
  exact ⟨t, by rw [← ht, List.append_assoc]⟩

lemma lastSlice_length (l : List α) (n : Nat) (hn : n ≠ 0) :
    (lastSlice l n).length = min l.length n := by
  simp only [lastSlice, if_neg hn, List.length_drop]
  omega

lemma effectiveLimit_pos (T : Nat) (hT : 1 ≤ T) (limit : Option Nat) :
    effectiveLimit T limit ≠ 0 := by
  cases limit with
  | none =>
    show T ≠ 0
    omega
  | some n =>
    by_cases hn : n = 0
    · show (if n = 0 then T else n) ≠ 0
      rw [if_pos hn]
      omega
    · show (if n = 0 then T else n) ≠ 0
      rw [if_neg hn]
      exact hn

lemma allEntries_good (now : Nat) (msgs : List (String × JValue)) :
    ∀ e ∈ allEntries now msgs, ∃ r c t, e = RawEntry.good r c t := by
  induction msgs generalizing now with
  | nil => intro e he; simp [allEntries] at he
  | cons m rest ih =>
    obtain ⟨r, c⟩ := m
    intro e he
    rw [allEntries, List.mem_cons] at he
    rcases he with he | he
    · exact ⟨r, c, now, he⟩
    · exact ih (now + 1) e he

lemma readEntries_length_of_good (l : List RawEntry)
    (h : ∀ e ∈ l, ∃ r c t, e = RawEntry.good r c t) :
    (readEntries l).length = l.length := by
  induction l with
  | nil => rfl
  | cons e es ih =>
    obtain ⟨r, c, t, he⟩ := h e (List.mem_cons_self e es)
    subst he
    simp only [readEntries, parseEntry, List.length_cons]
    rw [ih (fun x hx => h x (List.mem_cons_of_mem _ hx))]

lemma runAppends_suffix (T : Nat) (msgs : List (String × JValue)) :
    ∀ stored acc now, stored <:+ acc →
      runAppends T stored now msgs <:+ acc ++ allEntries now msgs := by
  induction msgs with
  | nil => intro stored acc now h; simpa [runAppends, allEntries] using h
  | cons m rest ih =>
    intro stored acc now h
    obtain ⟨r, c⟩ := m
    have h1 : append_message T stored r c now <:+ acc ++ [RawEntry.good r c now] := by
      exact (lastSlice_suffix _ _).trans (suffix_append_single _ h)
    have h2 := ih (append_message T stored r c now) (acc ++ [RawEntry.good r c now]) (now + 1) h1
    have heq : acc ++ allEntries now ((r, c) :: rest)
        = (acc ++ [RawEntry.good r c now]) ++ allEntries (now + 1) rest := by
      simp [allEntries]
    rw [runAppends, heq]
    exact h2

lemma append_memory_localCache (cfg : Config) (st : AgentState) (s q : String)
    (r : JValue) : (append_memory cfg st s q r).localCache = st.localCache := by
  unfold append_memory agentAppend
  split <;> rfl

lemma append_memory_remoteStore (cfg : Config) (st : AgentState) (s q : String)
    (r : JValue) : (append_memory cfg st s q r).remoteStore = st.remoteStore := by
  unfold append_memory agentAppend
  split <;> rfl

lemma runner_result_ne_empty (cfg : Config) (prompt : String) :
    (runner_result cfg prompt).1 ≠ "" := by
  unfold runner_result
  cases cfg.gen prompt with
  | output s =>
    by_cases hs : s = ""
    · simp [hs, emptyOutputResponse]
    · simp [hs]
  | raises => simp [generate_fallback_response]

lemma generate_response_ne_empty (cfg : Config) (st : AgentState) (q : String)
    (cid : Option String) (sk : String) : (generate_response cfg st q cid sk).1 ≠ "" := by
  unfold generate_response
  split
  · exact by decide
  · exact runner_result_ne_empty cfg _

/-! ## C10 — session-key derivation treats empty strings as absent -/

/-- C10: for every `customer_id` and `session_id`, the session key computed by
`EnhancedSupportAgent._conversation_key` is `session_id` exactly when it is a
non-empty string, else `customer_id` when that is a non-empty string, else the
sentinel `"anonymous-session"`; in particular `session_id = ""` with
`customer_id = "42"` yields `"42"`. -/
theorem C10_conversation_key_empty_as_absent :
    (∀ customer_id session_id,
        conversation_key customer_id session_id = specSessionKey customer_id session_id)
    ∧ conversation_key (some "42") (some "") = "42" := by
  constructor
  · intro cid sid
    cases sid with
    | none =>
      cases cid with
      | none => rfl
      | some c =>
        by_cases hc : c = "" <;>
          simp [conversation_key, specSessionKey, pyOrStr, hc]
    | some s =>
      by_cases hs : s = ""
      · cases cid with
        | none => simp [conversation_key, specSessionKey, pyOrStr, hs]
        | some c =>
          by_cases hc : c = "" <;>
            simp [conversation_key, specSessionKey, pyOrStr, hs, hc]
      · simp [conversation_key, specSessionKey, pyOrStr, hs]
  · rfl

/-! ## C5 — tool gateway not-found envelope and no-raise guarantee -/

/-- C5: `_call_tool` returns exactly
`{success: false, error: "Tool '<name>' not found"}` when the name is absent
from the normalized tool map; every exception from loading or from calling the
tool is caught and surfaced as `{success: false, error: <message>}`, and every
failure carries an error message (the function is total, so it never raises). -/
theorem C5_call_tool_envelopes :
    (∀ tools name, (load_tool_map tools).lookup name = none →
        call_tool (.loaded tools) name = failEnv ("Tool \x27" ++ name ++ "\x27 not found"))
    ∧ (∀ msg name, call_tool (.raises msg) name = failEnv msg)
    ∧ (∀ tools t name msg, (load_tool_map tools).lookup name = some t →
        t.run = .error msg → call_tool (.loaded tools) name = failEnv msg)
    ∧ (∀ lr name, (call_tool lr name).success = false →
        ∃ msg, call_tool lr name = failEnv msg) := by
  refine ⟨?_, ?_, ?_, ?_⟩
  · intro tools name h
    simp [call_tool, h, notFoundEnv]
  · intro msg name
    rfl
  · intro tools t name msg hl hr
    simp [call_tool, hl, hr]
  · intro lr name
    cases lr with
    | raises msg => exact fun _ => ⟨msg, by simp [call_tool]⟩
    | loaded tools =>
      intro h
      cases hl : (load_tool_map tools).lookup name with
      | none =>
        exact ⟨"Tool \x27" ++ name ++ "\x27 not found", by simp [call_tool, hl, notFoundEnv]⟩
      | some t =>
        cases hr : t.run with
        | ok v => simp [call_tool, hl, hr, okEnv] at h
        | error msg => exact ⟨msg, by simp [call_tool, hl, hr]⟩

/-- Witness for C5 at a concrete input: a loaded toolset holding only
`recent_orders` (normalized to `recent-orders`) has no `customer-profile`. -/
theorem C5_call_tool_envelopes_witness :
    (load_tool_map [⟨some "recent_orders", none, .ok .null⟩]).lookup "customer-profile" = none
    ∧ call_tool (.loaded [⟨some "recent_orders", none, .ok .null⟩]) "customer-profile"
        = failEnv ("Tool \x27customer-profile\x27 not found") :=
  ⟨rfl, C5_call_tool_envelopes.1 [⟨some "recent_orders", none, .ok .null⟩] "customer-profile" rfl⟩

/-! ## C9 — malformed memory entries are skipped -/

/-- C9: for every stored session list (any mix of well-formed and malformed
elements) and every limit, `get_recent_messages` returns exactly the entries of
the selected most-recent range that deserialize, in order, skipping each
malformed one; the embedding is total, so the read never raises. -/
theorem C9_get_recent_skips_malformed (maxTurns : Nat) (stored : List RawEntry)
    (limit : Option Nat) :
    get_recent_messages maxTurns stored limit
      = (lastSlice stored (effectiveLimit maxTurns limit * 2)).filterMap parseEntry := by
  unfold get_recent_messages
  exact readEntries_eq_filterMap _

/-! ## C6 — web_search never fails and mocks deterministically -/

/-- C6: `web_search` always returns `success = true`; with no search credential
(`None` or the falsy `""`), and likewise on any transport error of the Tavily
call, it returns the deterministic single-result mock payload tagged
`source = "mock"`, whose `title` field embeds the literal query text.  The
embedding is total, so the call never raises. -/
theorem C6_web_search_never_fails :
    (∀ key http q a b c d e, (web_search key http q a b c d e).success = true)
    ∧ (∀ http q a b c d e, web_search none http q a b c d e = mockSearchEnvelope q)
    ∧ (∀ http q a b c d e, web_search (some "") http q a b c d e = mockSearchEnvelope q)
    ∧ (∀ k http q a b c d e msg,
        http (tavilyPayload q k a b c d e) = .raises msg →
        web_search (some k) http q a b c d e = mockSearchEnvelope q)
    ∧ (∀ q, (mockSearchEnvelope q).source = some "mock"
        ∧ ∃ pre suf, (mockSearchEnvelope q).data
            = some (.obj [("query", .str q),
                          ("results", .arr [.obj [
                            ("title", .str (pre ++ q ++ suf)),
                            ("snippet", .str ("This is placeholder data for \x27" ++ q ++ "\x27.")),
                            ("url", .str "https://example.com")]])])) := by
  refine ⟨?_, ?_, ?_, ?_, ?_⟩
  · intro key http q a b c d e
    unfold web_search
    cases key with
    | none => rfl
    | some k =>
      by_cases hk : k = ""
      · simp [hk, mockSearchEnvelope]
      · simp only [hk, if_false]
        cases http (tavilyPayload q k a b c d e) <;> rfl
  · intro http q a b c d e
    rfl
  · intro http q a b c d e
    rfl
  · intro k http q a b c d e msg hr
    unfold web_search
    by_cases hk : k = ""
    · simp [hk]
    · simp [hk, hr]
  · intro q
    exact ⟨rfl, "Mock information about ", "", by simp [mockSearchEnvelope, mockSearchData]⟩

/-- Witness for C6 at a concrete input: the Tavily call raises and the caller
still receives the mock envelope. -/
theorem C6_web_search_never_fails_witness :
    ((fun _ => HttpResult.raises "timeout")
        (tavilyPayload "refund policy" "key1" none none none none none)
      = HttpResult.raises "timeout")
    ∧ web_search (some "key1") (fun _ => HttpResult.raises "timeout") "refund policy"
        none none none none none = mockSearchEnvelope "refund policy" :=
  ⟨rfl, C6_web_search_never_fails.2.2.2.1 "key1" (fun _ => HttpResult.raises "timeout")
    "refund policy" none none none none none "timeout" rfl⟩

/-! ## C4 — fallback provider substitution on gateway failure -/

/-- C4 (amended): when the gateway call fails, `fetch_recent_orders`,
`fetch_customer_profile` and `cache_data` substitute their deterministic mocked
or local results, and `web_search` never fails at all — for these four the
caller never observes a transport failure.  `get_cached_data`, however,
substitutes the in-process fallback value only when the key is present locally,
and otherwise propagates the gateway's failure envelope. -/
theorem C4_fallback_substitution (lr : LoadResult) :
    (∀ cid, (call_tool lr "recent-orders").success = false →
        fetch_recent_orders lr cid = mockOrdersEnvelope cid
        ∧ (mockOrdersEnvelope cid).success = true)
    ∧ (∀ cid, (call_tool lr "customer-profile").success = false →
        fetch_customer_profile lr cid = mockProfileEnvelope cid
        ∧ (mockProfileEnvelope cid).success = true)
    ∧ (∀ key http q a b c d e, (web_search key http q a b c d e).success = true)
    ∧ (∀ localCache k v ttl, (call_tool lr "redis-set-cache").success = false →
        (cache_data lr localCache k v ttl).1 = localSetEnvelope
        ∧ localSetEnvelope.success = true)
    ∧ (∀ localCache k, (call_tool lr "redis-get-cache").success = false →
        get_cached_data lr localCache k
          = match localCache.lookup k with
            | some v => localHitEnvelope v
            | none => call_tool lr "redis-get-cache") := by
  refine ⟨?_, ?_, C6_web_search_never_fails.1, ?_, ?_⟩
  · intro cid h
    exact ⟨by simp [fetch_recent_orders, fetch_recent_orders_with, h], rfl⟩
  · intro cid h
    exact ⟨by simp [fetch_customer_profile, fetch_customer_profile_with, h], rfl⟩
  · intro localCache k v ttl h
    exact ⟨by simp [cache_data, cache_data_with, h], rfl⟩
  · intro localCache k h
    unfold get_cached_data get_cached_data_with
    simp only [h, Bool.false_and, if_false]
    cases localCache.lookup k <;> rfl

/-- Counterexample for C4 as stated: with the transport down and an empty local
fallback mapping, `get_cached_data` returns the transport's `success = false`
envelope to the caller. -/
theorem C4_counterexample :
    (get_cached_data (.raises "connection refused") [] "k").success = false
    ∧ get_cached_data (.raises "connection refused") [] "k" = failEnv "connection refused" :=
  ⟨rfl, rfl⟩

/-- Witness for C4 at a concrete input: transport down, orders are mocked. -/
theorem C4_fallback_substitution_witness :
    (call_tool (.raises "down") "recent-orders").success = false
    ∧ fetch_recent_orders (.raises "down") "42" = mockOrdersEnvelope "42"
    ∧ (mockOrdersEnvelope "42").success = true :=
  ⟨rfl, (C4_fallback_substitution (.raises "down")).1 "42" rfl⟩

/-! ## C7 — cache_set remote failure falls back locally and round-trips -/

/-- C7: if the gateway `redis-set-cache` call fails, `cache_data` reports
`{success: true, storage: "local"}` after writing the value into the in-process
mapping, and a subsequent `get_cached_data` whose gateway read misses or fails
returns `{success: true, data: v, storage: "local"}`. -/
theorem C7_local_round_trip (lrSet lrGet : LoadResult)
    (localCache : List (String × String)) (k v : String) (ttl : Int)
    (hset : (call_tool lrSet "redis-set-cache").success = false)
    (hget : ((call_tool lrGet "redis-get-cache").success
              && (call_tool lrGet "redis-get-cache").dataIsNotNone) = false) :
    (cache_data lrSet localCache k v ttl).1 = localSetEnvelope
    ∧ (cache_data lrSet localCache k v ttl).2 = (k, v) :: localCache
    ∧ get_cached_data lrGet (cache_data lrSet localCache k v ttl).2 k
        = localHitEnvelope v := by
  have h2 : (cache_data lrSet localCache k v ttl).2 = (k, v) :: localCache := by
    simp [cache_data, cache_data_with, hset]
  refine ⟨by simp [cache_data, cache_data_with, hset], h2, ?_⟩
  rw [h2]
  unfold get_cached_data get_cached_data_with
  simp [hget, List.lookup]

/-- Witness for C7 at a concrete input: both gateway calls raise. -/
theorem C7_local_round_trip_witness :
    (call_tool (.raises "down") "redis-set-cache").success = false
    ∧ ((call_tool (.raises "down") "redis-get-cache").success
        && (call_tool (.raises "down") "redis-get-cache").dataIsNotNone) = false
    ∧ get_cached_data (.raises "down") (cache_data (.raises "down") [] "k" "v" 3600).2 "k"
        = localHitEnvelope "v" :=
  ⟨rfl, rfl,
   (C7_local_round_trip (.raises "down") (.raises "down") [] "k" "v" 3600 rfl rfl).2.2⟩

/-! ## C3 — memory bound and chronological order -/

/-- Counterexample for C3 as stated: with `max_turns = 0` the trim is
`LTRIM key 0 -1`, which keeps the whole list, so one append leaves the stored
sequence longer than `2 * max_turns = 0`. -/
theorem C3_counterexample :
    2 * 0 < (runAppends 0 [] 0 [("user", .str "hi")]).length := by
  decide

/-- C3 (amended, `max_turns ≥ 1`): after any sequence of `append_message` calls
to one session with `max_turns = T ≥ 1`, the stored sequence never exceeds
`2 * T` entries, and `get_recent_messages` returns a suffix of the full
chronological message sequence of those appends — the most recent entries,
oldest first. -/
theorem C3_bounded_recent_history (T : Nat) (hT : 1 ≤ T)
    (msgs : List (String × JValue)) (limit : Option Nat) :
    (runAppends T [] 0 msgs).length ≤ 2 * T
    ∧ get_recent_messages T (runAppends T [] 0 msgs) limit
        <:+ readEntries (allEntries 0 msgs)
    ∧ (get_recent_messages T (runAppends T [] 0 msgs) limit).length
        = min (runAppends T [] 0 msgs).length (effectiveLimit T limit * 2) := by
  have hstored : runAppends T [] 0 msgs <:+ allEntries 0 msgs := by
    simpa using runAppends_suffix T msgs [] [] 0 List.suffix_rfl
  refine ⟨runAppends_length_le T hT msgs [] 0 (by simp), ?_, ?_⟩
  · exact readEntries_suffix ((lastSlice_suffix _ _).trans hstored)
  · have hn : effectiveLimit T limit * 2 ≠ 0 := by
      have := effectiveLimit_pos T hT limit
      omega
    have hgood : ∀ e ∈ lastSlice (runAppends T [] 0 msgs) (effectiveLimit T limit * 2),
        ∃ r c t, e = RawEntry.good r c t := by
      intro e he
      exact allEntries_good 0 msgs e
        (hstored.subset ((lastSlice_suffix _ _).subset he))
    unfold get_recent_messages
    rw [readEntries_length_of_good _ hgood, lastSlice_length _ _ hn]

/-- Witness for C3 at a concrete input: three appends with `max_turns = 1`. -/
theorem C3_bounded_recent_history_witness :
    1 ≤ 1
    ∧ ((runAppends 1 [] 0 [("user", .str "a"), ("assistant", .str "b"), ("user", .str "c")]).length ≤ 2 * 1
    ∧ get_recent_messages 1
        (runAppends 1 [] 0 [("user", .str "a"), ("assistant", .str "b"), ("user", .str "c")]) none
        <:+ readEntries (allEntries 0 [("user", .str "a"), ("assistant", .str "b"), ("user", .str "c")])
    ∧ (get_recent_messages 1
        (runAppends 1 [] 0 [("user", .str "a"), ("assistant", .str "b"), ("user", .str "c")]) none).length
        = min (runAppends 1 [] 0 [("user", .str "a"), ("assistant", .str "b"), ("user", .str "c")]).length
            (effectiveLimit 1 none * 2)) :=
  ⟨by decide,
   C3_bounded_recent_history 1 (by decide)
     [("user", .str "a"), ("assistant", .str "b"), ("user", .str "c")] none⟩

/-! ## handle_query path lemmas -/

lemma handle_query_hit (cfg : Config) (st : AgentState) (q : String)
    (cid sid : Option String)
    (h : ((cachedEnvelope cfg st q cid).success
          && (cachedEnvelope cfg st q cid).dataTruthy) = true) :
    (handle_query cfg st q cid sid).1
      = { source := "cache", response := (cachedEnvelope cfg st q cid).data.getD .null,
          cached := true, user_query := q }
    ∧ (handle_query cfg st q cid sid).2.2
      = { genInvoked := false, runnerInvoked := false } := by
  unfold handle_query
  simp [h]

lemma handle_query_miss_parts (cfg : Config) (st : AgentState) (q : String)
    (cid sid : Option String)
    (h : ((cachedEnvelope cfg st q cid).success
          && (cachedEnvelope cfg st q cid).dataTruthy) = false) :
    (handle_query cfg st q cid sid).1
      = { source := "agent",
          response := .str (generate_response cfg st q cid (conversation_key cid sid)).1,
          cached := false, user_query := q }
    ∧ (handle_query cfg st q cid sid).2.2
      = { genInvoked := true,
          runnerInvoked := (generate_response cfg st q cid (conversation_key cid sid)).2 } := by
  unfold handle_query
  simp [h]

lemma handle_query_miss_state (cfg : Config) (st : AgentState) (q : String)
    (cid sid : Option String)
    (h : ((cachedEnvelope cfg st q cid).success
          && (cachedEnvelope cfg st q cid).dataTruthy) = false) :
    (handle_query cfg st q cid sid).2.1.localCache
      = (if cfg.remoteUp then st.localCache
         else (cache_key cfg.pyHash cid q,
               (generate_response cfg st q cid (conversation_key cid sid)).1) :: st.localCache)
    ∧ (handle_query cfg st q cid sid).2.1.remoteStore
      = (if cfg.remoteUp then
           (cache_key cfg.pyHash cid q,
            (generate_response cfg st q cid (conversation_key cid sid)).1) :: st.remoteStore
         else st.remoteStore) := by
  unfold handle_query
  cases hup : cfg.remoteUp <;>
    simp [h, hup, append_memory_localCache, append_memory_remoteStore, gwSet,
      cache_data_with, okEnv, failEnv]

lemma cachedEnvelope_after_miss (cfg : Config) (st : AgentState) (q : String)
    (cid sid : Option String)
    (h : ((cachedEnvelope cfg st q cid).success
          && (cachedEnvelope cfg st q cid).dataTruthy) = false) :
    (cachedEnvelope cfg (handle_query cfg st q cid sid).2.1 q cid).success = true
    ∧ (cachedEnvelope cfg (handle_query cfg st q cid sid).2.1 q cid).data
        = some (.str (generate_response cfg st q cid (conversation_key cid sid)).1) := by
  obtain ⟨hlc, hrs⟩ := handle_query_miss_state cfg st q cid sid h
  cases hup : cfg.remoteUp with
  | true =>
    rw [hup, if_pos rfl] at hrs
    unfold cachedEnvelope gwGet get_cached_data_with
    simp [hup, hrs, List.lookup, okEnv, Envelope.dataIsNotNone]
  | false =>
    rw [hup] at hlc
    simp only [Bool.false_eq_true, if_false] at hlc
    unfold cachedEnvelope gwGet get_cached_data_with
    simp [hup, hlc, List.lookup, failEnv, localHitEnvelope, Envelope.dataIsNotNone]

lemma handle_query_second_hit (cfg : Config) (st : AgentState) (q : String)
    (cid sid : Option String)
    (h : ((cachedEnvelope cfg st q cid).success
          && (cachedEnvelope cfg st q cid).dataTruthy) = false) :
    (handle_query cfg (handle_query cfg st q cid sid).2.1 q cid sid).1
      = { source := "cache",
          response := .str (generate_response cfg st q cid (conversation_key cid sid)).1,
          cached := true, user_query := q } := by
  have hne := generate_response_ne_empty cfg st q cid (conversation_key cid sid)
  obtain ⟨hsucc, hdata⟩ := cachedEnvelope_after_miss cfg st q cid sid h
  have hcond : ((cachedEnvelope cfg (handle_query cfg st q cid sid).2.1 q cid).success
      && (cachedEnvelope cfg (handle_query cfg st q cid sid).2.1 q cid).dataTruthy) = true := by
    simp [hsucc, Envelope.dataTruthy, hdata, JValue.truthy, hne]
  have hhit := (handle_query_hit cfg (handle_query cfg st q cid sid).2.1 q cid sid hcond).1
  rw [hhit, hdata]
  rfl

/-! ## C1 — cache hit short-circuits -/

/-- C1: whenever the fallback provider's `get_cached_data` on the derived cache
key reports success with truthy data, `handle_query` returns
`{source: "cache", response: <cached value>, cached: true, user_query}` and the
generation step (`_generate_response`, hence also `Runner.run`) is never
invoked. -/
theorem C1_cache_hit_short_circuits (cfg : Config) (st : AgentState) (q : String)
    (cid sid : Option String)
    (hsucc : (cachedEnvelope cfg st q cid).success = true)
    (hdata : (cachedEnvelope cfg st q cid).dataTruthy = true) :
    (handle_query cfg st q cid sid).1
      = { source := "cache", response := (cachedEnvelope cfg st q cid).data.getD .null,
          cached := true, user_query := q }
    ∧ (handle_query cfg st q cid sid).2.2.genInvoked = false
    ∧ (handle_query cfg st q cid sid).2.2.runnerInvoked = false := by
  have h := handle_query_hit cfg st q cid sid (by simp [hsucc, hdata])
  exact ⟨h.1, by rw [h.2], by rw [h.2]⟩

/-- Witness for C1 at a concrete input: the remote cache holds `"hello"` under
the derived key `support:1:0`. -/
theorem C1_cache_hit_short_circuits_witness :
    (cachedEnvelope cfgUp stHit "hi" (some "1")).success = true
    ∧ (cachedEnvelope cfgUp stHit "hi" (some "1")).dataTruthy = true
    ∧ (handle_query cfgUp stHit "hi" (some "1") none).1
        = { source := "cache", response := (cachedEnvelope cfgUp stHit "hi" (some "1")).data.getD .null,
            cached := true, user_query := "hi" } :=
  ⟨rfl, rfl, (C1_cache_hit_short_circuits cfgUp stHit "hi" (some "1") none rfl rfl).1⟩

/-! ## C2 — miss then idempotent write-then-read hit -/

/-- C2: when the initial cache read of `handle_query` is a miss, the call returns
`cached: false` and `source: "agent"`, and a second `handle_query` with the same
`(customer_id, query)` in the same process observes a cache hit — through the
remote store when the toolbox is up, through the in-process fallback cache when
it is down — returning the same response with `cached: true`. -/
theorem C2_miss_then_hit (cfg : Config) (st : AgentState) (q : String)
    (cid sid : Option String)
    (hmiss : ((cachedEnvelope cfg st q cid).success
              && (cachedEnvelope cfg st q cid).dataTruthy) = false) :
    (handle_query cfg st q cid sid).1.cached = false
    ∧ (handle_query cfg st q cid sid).1.source = "agent"
    ∧ (handle_query cfg (handle_query cfg st q cid sid).2.1 q cid sid).1
        = { source := "cache", response := (handle_query cfg st q cid sid).1.response,
            cached := true, user_query := q } := by
  have h1 := (handle_query_miss_parts cfg st q cid sid hmiss).1
  refine ⟨by rw [h1], by rw [h1], ?_⟩
  rw [handle_query_second_hit cfg st q cid sid hmiss, h1]

/-- Witness for C2 at a concrete input: toolbox down, empty state — the second
call is served from the in-process fallback cache. -/
theorem C2_miss_then_hit_witness :
    ((cachedEnvelope cfgDown stEmpty "hi" (some "1")).success
      && (cachedEnvelope cfgDown stEmpty "hi" (some "1")).dataTruthy) = false
    ∧ (handle_query cfgDown stEmpty "hi" (some "1") none).1.cached = false
    ∧ (handle_query cfgDown
        (handle_query cfgDown stEmpty "hi" (some "1") none).2.1 "hi" (some "1") none).1
        = { source := "cache",
            response := (handle_query cfgDown stEmpty "hi" (some "1") none).1.response,
            cached := true, user_query := "hi" } :=
  ⟨rfl, (C2_miss_then_hit cfgDown stEmpty "hi" (some "1") none rfl).1,
   (C2_miss_then_hit cfgDown stEmpty "hi" (some "1") none rfl).2.2⟩

/-! ## C8 — no generation credential short-circuit -/

/-- C8: on a cache miss with no generation credential configured, `handle_query`
does not attempt generation (`Runner.run` is not invoked) and returns
`{source: "agent", cached: false}` with the fixed friendly fallback string; a
second identical call returns `{source: "cache", cached: true}` with the same
response. -/
theorem C8_no_credential_short_circuit (cfg : Config) (st : AgentState) (q : String)
    (cid sid : Option String)
    (hkey : cfg.hasApiKey = false)
    (hmiss : ((cachedEnvelope cfg st q cid).success
              && (cachedEnvelope cfg st q cid).dataTruthy) = false) :
    (handle_query cfg st q cid sid).1
      = { source := "agent", response := .str noCredentialResponse,
          cached := false, user_query := q }
    ∧ (handle_query cfg st q cid sid).2.2.runnerInvoked = false
    ∧ (handle_query cfg (handle_query cfg st q cid sid).2.1 q cid sid).1
        = { source := "cache", response := .str noCredentialResponse,
            cached := true, user_query := q } := by
  have hgen : generate_response cfg st q cid (conversation_key cid sid)
      = (noCredentialResponse, false) := by
    unfold generate_response
    simp [hkey]
  obtain ⟨h1, h2⟩ := handle_query_miss_parts cfg st q cid sid hmiss
  refine ⟨by rw [h1, hgen], by rw [h2, hgen], ?_⟩
  rw [handle_query_second_hit cfg st q cid sid hmiss, hgen]

/-- Witness for C8 at a concrete input: no credential, toolbox down, empty
state. -/
theorem C8_no_credential_short_circuit_witness :
    cfgDown.hasApiKey = false
    ∧ ((cachedEnvelope cfgDown stEmpty "orders?" (some "1")).success
        && (cachedEnvelope cfgDown stEmpty "orders?" (some "1")).dataTruthy) = false
    ∧ (handle_query cfgDown stEmpty "orders?" (some "1") none).1
        = { source := "agent", response := .str noCredentialResponse,
            cached := false, user_query := "orders?" } :=
  ⟨rfl, rfl,
   (C8_no_credential_short_circuit cfgDown stEmpty "orders?" (some "1") none rfl rfl).1⟩

end CustomerSupport
